import Mathlib

/-!
Verification of the sage-patchbot core (src/patchbot.py) against its
natural-language specification.

The development shallowly embeds the parts of patchbot.py that the claims
are about:

* `compare_machines` (patchbot.py lines 74-92),
* the rating engine `Patchbot.rate_ticket` (lines 559-675) together with the
  skip-ledger consultation it performs (lines 667-675),
* the selector `Patchbot.get_ticket` (lines 519-551),
* the state-to-status table `status` (lines 176-185),
* the pipeline of `Patchbot.test_a_ticket` (lines 736-885) including its
  plugin loop (lines 792-827), exception handlers (lines 850-867) and the
  report retry loop (lines 869-881),
* the delivery condition of `Patchbot.report_ticket` (lines 1023-1041).

The source is Python 2, so the embedding models the Python 2 value
semantics that the code actually relies on: booleans are the integers
0 and 1, `min` of two sequences is the lexicographic minimum of the whole
sequences, and values of different types are ordered by their type names,
so that every `int` sorts below every `list`, which sorts below every
`tuple`.

External collaborators that live outside patchbot.py (the HTTP fetches,
`git rev-list` invocations, plugin callables, report delivery) are passed
in as explicit oracle functions, and the helpers imported from the absent
util.py are modelled as documented on their definitions.
-/

/-! ## Python 2 values used by the rating engine -/

/-- A Python value that can appear as the `uniqueness` component of a score:
the int `100` (returned for ticket 0 at line 573), or a list of ints
(`compare_machines` returns a list of booleans, possibly with an appended
int), or a tuple of ints (`(100,)` at line 629 and the override
`(0, 0, 0, 0, 1)` at line 649).  Python booleans are modelled by the
integers 0 and 1, which is how the code compares and tests them. -/
inductive PyUniq where
  | pyInt : Int → PyUniq
  | pyList : List Int → PyUniq
  | pyTuple : List Int → PyUniq
deriving DecidableEq

/-- Lexicographic comparison of two int sequences, as Python 2 compares two
lists (or two tuples): elementwise, with a strict prefix sorting first. -/
def intListLt : List Int → List Int → Bool
  | [], [] => false
  | [], _ :: _ => true
  | _ :: _, [] => false
  | x :: xs, y :: ys => if x < y then true else if y < x then false else intListLt xs ys

/-- The rank Python 2 gives these types when comparing values of different
types: it compares the type names, and "int" < "list" < "tuple". -/
def pyRank : PyUniq → Nat
  | .pyInt _ => 0
  | .pyList _ => 1
  | .pyTuple _ => 2

/-- Python 2 `<` on the values a `uniqueness` can take: values of the same
type compare numerically / lexicographically, values of different types
compare by type name. -/
def pyUniqLt (u v : PyUniq) : Bool :=
  match u, v with
  | .pyInt a, .pyInt b => a < b
  | .pyList a, .pyList b => intListLt a b
  | .pyTuple a, .pyTuple b => intListLt a b
  | u, v => pyRank u < pyRank v

/-- Python `min(u, v)`: keeps `u` unless `v` compares strictly smaller. -/
def pyMin (u v : PyUniq) : PyUniq :=
  if pyUniqLt v u then v else u

/-- Python `any(u)` on such a value: for a sequence, some element is truthy
(nonzero); an int is its own truthiness.  Used at lines 648 and 662. -/
def pyAny : PyUniq → Bool
  | .pyInt n => !(n == 0)
  | .pyList l => l.any (fun x => !(x == 0))
  | .pyTuple l => l.any (fun x => !(x == 0))

/-- A score as returned by `rate_ticket` (line 675): the triple
`(uniqueness, rating, -ticket id)`; for ticket 0 the triple
`(100, 100, 0)` of line 573, whose first component is the int 100. -/
def Score : Type := PyUniq × Int × Int

instance : DecidableEq Score := by
  unfold Score
  infer_instance

/-- Python 2 `<` on two scores: tuples compare lexicographically,
component by component. -/
def scoreLt (a b : Score) : Bool :=
  pyUniqLt a.1 b.1 ||
    (decide (a.1 = b.1) && (decide (a.2.1 < b.2.1) ||
      (decide (a.2.1 = b.2.1) && decide (a.2.2 < b.2.2))))

/-! ## Data model -/

instance {ε α : Type} [DecidableEq ε] [DecidableEq α] : DecidableEq (Except ε α) := by
  intro a b
  cases a <;> cases b <;> first
    | (apply isFalse; intro h; exact Except.noConfusion h)
    | (rename_i x y
       exact if h : x = y then isTrue (by rw [h]) else
         isFalse (fun hh => h (Except.noConfusion hh (fun hxy => hxy))))

/-- A prior report on a ticket, with the fields `rate_ticket` reads:
the originating machine fingerprint, the outcome status string, and the
optional base commit identity `git_base`. -/
structure Report where
  machine : List String
  status : String
  git_base : Option String
deriving DecidableEq

/-- Truthiness of an optional string in Python: `None` and the empty
string are falsy. -/
def truthyStr : Option String → Bool
  | none => false
  | some s => !(s == "")

/-- A ticket, with the fields `rate_ticket` and `test_a_ticket` read.
`current_reports` holds the relevant prior reports for this ticket, i.e.
the output of the external helper `util.current_reports` (imported at
line 44 from the absent util.py) already applied to the ticket. -/
structure Ticket where
  id : Int
  git_branch : Option String
  status : String
  milestone : String
  authors : List String
  participants : List String
  component : Option String
  priority : String
  retry : Bool
  current_reports : List Report

/-- The configuration fields `rate_ticket` reads (built by `get_config`,
lines 402-467).  `bonus` is total because `get_config` merges the
`default_bonus` table into the user table and `bonus.get(key, 0)`
defaults to 0; in particular the key "behind" of line 641 is always
present. -/
structure Config where
  bonus : String → Int
  trusted_authors : List String
  machine : List String
  machine_match : Nat

/-- The statuses a ticket may have to be testable (line 580). -/
def allowedStatuses : List String :=
  ["needs_review", "positive_review", "needs_info", "needs_work"]

/-- The milestones that make a ticket untestable (line 586). -/
def excludedMilestones : List String :=
  ["sage-duplicate/invalid/wontfix", "sage-feature", "sage-pending", "sage-wishlist"]

/-- The `default_bonus` table of get_config (lines 439-446), used to build
concrete configurations. -/
def defaultBonus : String → Int := fun s =>
  if s = "needs_review" then 1000
  else if s = "positive_review" then 500
  else if s = "blocker" then 100
  else if s = "critical" then 60
  else if s = "major" then 10
  else if s = "unique" then 40
  else if s = "applies" then 20
  else if s = "behind" then 1
  else 0

/-! ## compare_machines (lines 74-92) -/

/-- `compare_machines(a, b, machine_match)`: truncate both fingerprints to
the first `machine_match` fields when given, set `diff = [x != y for x, y
in zip(a, b)]` (so an entry is 1 exactly when the two fields differ), and
append a final 1 when the truncated lengths differ. -/
def compare_machines (a b : List String) (machine_match : Option Nat) : List Int :=
  let a1 := match machine_match with | some m => a.take m | none => a
  let b1 := match machine_match with | some m => b.take m | none => b
  let diff := (a1.zip b1).map (fun p => if p.1 = p.2 then 0 else 1)
  if a1.length ≠ b1.length then diff ++ [1] else diff

/-! ## The rating engine rate_ticket (lines 559-675) -/

/-- The exception that can escape the embedded `rate_ticket`: the
`UnboundLocalError` raised at line 648 when `only_in_base` is read before
any report with a truthy `git_base` has assigned it. -/
inductive PyErr where
  | unboundLocalOnlyInBase
deriving DecidableEq

/-- The mutable locals of the report-scanning loop (lines 629-658):
the running `rating`, the running `uniqueness`, and the binding state of
the local `only_in_base` (`none` means not yet assigned). -/
structure LoopSt where
  rating : Int
  uniqueness : PyUniq
  onlyInBase : Option Int

/-- The value `int(subprocess.check_output(["git", "rev-list", "--count",
...]))` of line 637 computes for a report, given the git oracle: the count
on success, and -1 when the command raises (line 640) because the
report's base is not in the local repository. -/
def reportOib (git : String → Option Int) (r : Report) : Int :=
  match r.git_base with
  | some s => (match git s with | some n => n | none => -1)
  | none => 0

/-- The per-report uniqueness vector after the override of lines 648-649:
`compare_machines(report['machine'], config['machine'], machine_match)`,
replaced by the tuple `(0, 0, 0, 0, 1)` when `only_in_base` is truthy and
no field differs. -/
def reportVec (cfg : Config) (oib : Int) (r : Report) : PyUniq :=
  let ru := compare_machines r.machine cfg.machine (some cfg.machine_match)
  if !(oib == 0) && ru.all (fun x => x == 0) then .pyTuple [0, 0, 0, 0, 1]
  else .pyList ru

/-- One iteration of the report loop (lines 634-658). -/
def scanReport (cfg : Config) (git : String → Option Int) (st : LoopSt)
    (r : Report) : Except PyErr LoopSt :=
  let gb := truthyStr r.git_base
  let bound : Option Int := if gb then some (reportOib git r) else st.onlyInBase
  let rating1 : Int :=
    if gb then st.rating + cfg.bonus "behind" * reportOib git r else st.rating
  match bound with
  | none => .error .unboundLocalOnlyInBase
  | some c =>
    let u1 := pyMin st.uniqueness (reportVec cfg c r)
    let rating2 := if r.status ≠ "ApplyFailed" then rating1 + cfg.bonus "applies" else rating1
    .ok ⟨rating2 - cfg.bonus "unique", u1, some c⟩

/-- The whole report loop of lines 634-658. -/
def scanReports (cfg : Config) (git : String → Option Int) (st : LoopSt) :
    List Report → Except PyErr LoopSt
  | [] => .ok st
  | r :: rs =>
    match scanReport cfg git st r with
    | .error e => .error e
    | .ok st1 => scanReports cfg git st1 rs

/-- Modelled from the spec: `prune_pending` is imported at line 44 from
util.py, which is not part of the sources; the spec's invariant (section 3)
states that the rating computation never mutates the Ticket input, so the
call at line 624 is modelled as leaving the ticket unchanged. -/
def prune_pending (t : Ticket) : Ticket := t

/-- The bonuses accumulated before the report loop (lines 595-620):
twice the per-author bonus, once per participant, the component bonus if a
component is present, and the bonuses for the status, the priority and the
ticket id written as a decimal string. -/
def prelimRating (cfg : Config) (t : Ticket) : Int :=
  2 * (t.authors.map cfg.bonus).sum + (t.participants.map cfg.bonus).sum
    + (match t.component with | some c => cfg.bonus c | none => 0)
    + cfg.bonus t.status + cfg.bonus t.priority + cfg.bonus (toString t.id)

/-- Look a ticket id up in the skip ledger `self.to_skip` (a dict,
modelled as an association list). -/
def skipGet (id : Int) (sk : List (Int × Int)) : Option Int :=
  sk.lookup id

/-- Remove a ticket id from the skip ledger (`del self.to_skip[...]`,
line 669). -/
def skipDel (id : Int) (sk : List (Int × Int)) : List (Int × Int) :=
  sk.filter (fun p => !(p.1 == id))

/-- Write a skip entry (`self.to_skip[id] = until`), overwriting any
existing entry for that id. -/
def skipSet (id deadline : Int) (sk : List (Int × Int)) : List (Int × Int) :=
  (id, deadline) :: skipDel id sk

/-- The result of one `rate_ticket` call: the returned value (or the
escaped exception), the ticket after the call, and the skip ledger after
the call. -/
structure RateOut where
  res : Except PyErr (Option Score)
  ticket : Ticket
  to_skip : List (Int × Int)

/-- Lines 624-675 of `rate_ticket`: prune, scan the prior reports unless
the ticket is marked retry, give up when no field of the uniqueness vector
is truthy, then consult the skip ledger (removing the entry when its time
has passed, returning no score while it is still in the future), and
finally return `(uniqueness, rating, -id)`. -/
def rate_ticket_scan (cfg : Config) (git : String → Option Int) (now : Int)
    (toSkip : List (Int × Int)) (t : Ticket) (r0 : Int) : RateOut :=
  let st0 : LoopSt := ⟨r0, .pyTuple [100], none⟩
  let scanned := if t.retry then .ok st0 else scanReports cfg git st0 t.current_reports
  match scanned with
  | .error e => ⟨.error e, t, toSkip⟩
  | .ok st =>
    if pyAny st.uniqueness = false then ⟨.ok none, t, toSkip⟩
    else
      match skipGet t.id toSkip with
      | some e =>
        if e < now then ⟨.ok (some (st.uniqueness, st.rating, -t.id)), t, skipDel t.id toSkip⟩
        else ⟨.ok none, t, toSkip⟩
      | none => ⟨.ok (some (st.uniqueness, st.rating, -t.id)), t, toSkip⟩

/-- `Patchbot.rate_ticket` (lines 559-675).  `git` is the oracle for the
`git rev-list --count` subprocess of line 637 (`none` meaning the command
raised); `now` is `time.time()`.  Ticket 0 short-circuits to the sentinel
score `(100, 100, 0)`; a missing branch, a status outside the allowed
family, an excluded milestone, or an untrusted author or participant make
the ticket untestable before any report is scanned. -/
def rate_ticket (cfg : Config) (git : String → Option Int) (now : Int)
    (toSkip : List (Int × Int)) (t : Ticket) : RateOut :=
  if t.id = 0 then ⟨.ok (some (.pyInt 100, 100, 0)), t, toSkip⟩
  else if truthyStr t.git_branch = false then ⟨.ok none, t, toSkip⟩
  else if ¬ t.status ∈ allowedStatuses then ⟨.ok none, t, toSkip⟩
  else if t.milestone ∈ excludedMilestones then ⟨.ok none, t, toSkip⟩
  else if ¬ (∀ a ∈ t.authors, a ∈ cfg.trusted_authors) then ⟨.ok none, t, toSkip⟩
  else if ¬ (∀ p ∈ t.participants, p ∈ cfg.trusted_authors) then ⟨.ok none, t, toSkip⟩
  else
    let t1 := prune_pending t
    rate_ticket_scan cfg git now toSkip t1 (prelimRating cfg t1)

/-! ## The selector get_ticket (lines 519-551) -/

/-- Score every candidate in turn (the generator expression of line 544),
dropping the tickets rated `None` and threading the skip ledger through
the successive `rate_ticket` calls; an escaping exception propagates. -/
def scoreAll (cfg : Config) (git : String → Option Int) (now : Int) :
    List (Int × Int) → List Ticket → Except PyErr (List (Score × Ticket) × List (Int × Int))
  | sk, [] => .ok ([], sk)
  | sk, t :: ts =>
    let o := rate_ticket cfg git now sk t
    match o.res with
    | .error e => .error e
    | .ok none => scoreAll cfg git now o.to_skip ts
    | .ok (some s) =>
      match scoreAll cfg git now o.to_skip ts with
      | .error e => .error e
      | .ok (rest, sk1) => .ok ((s, t) :: rest, sk1)

/-- Insert one scored ticket into an ascending list (the pairs of line 544
are sorted by `all.sort()` at line 547, which compares the scores first;
the tickets of the claims below always carry distinct scores). -/
def insertScored (x : Score × Ticket) : List (Score × Ticket) → List (Score × Ticket)
  | [] => [x]
  | y :: ys => if scoreLt x.1 y.1 then x :: y :: ys else y :: insertScored x ys

/-- Ascending sort of the scored tickets (line 547). -/
def sortScored (l : List (Score × Ticket)) : List (Score × Ticket) :=
  l.foldr insertScored []

/-- `Patchbot.get_ticket` (lines 519-551) for the single-ticket case:
rate all candidates, sort ascending, return the last (best) pair, or
nothing when no candidate is testable. -/
def get_ticket (cfg : Config) (git : String → Option Int) (now : Int)
    (toSkip : List (Int × Int)) (tickets : List Ticket) :
    Except PyErr (Option (Score × Ticket)) :=
  match scoreAll cfg git now toSkip tickets with
  | .error e => .error e
  | .ok (scored, _) => .ok (sortScored scored).getLast?

/-! ## The state-to-status table (lines 176-185) -/

/-- The module-level dict `status` mapping the pipeline state reached to
the status string reported. -/
def statusTable (s : String) : Option String :=
  (([("started", "ApplyFailed"),
     ("applied", "BuildFailed"),
     ("built", "TestsFailed"),
     ("tested", "TestsPassed"),
     ("tests_passed_plugins_failed", "PluginFailed"),
     ("plugins", "PluginOnly"),
     ("plugins_failed", "PluginOnlyFailed"),
     ("spkg", "Spkg"),
     ("network_error", "Pending"),
     ("skipped", "Pending")] : List (String × String)).lookup s)

/-! ## The pipeline of test_a_ticket (lines 736-885) -/

/-- The exceptions the pipeline's handlers (lines 850-867) discriminate:
the network and transport classes `urllib2.HTTPError`, `socket.error` and
`ConfigException`; the retry-later signal `SkipTicket` with its
`seconds_till_retry`; any other ordinary `Exception` (a failing delegated
stage surfaces this way, carrying an opaque code); and a non-`Exception`
abort (process kill), which only the bare `except:` of line 864
catches. -/
inductive PyExc where
  | httpError
  | socketError
  | configException
  | skipTicket (secs : Int)
  | stageFailure (code : Nat)
  | processAbort (code : Nat)
deriving DecidableEq

/-- The failure class each handler of lines 850-867 selects for an
exception. -/
inductive ExcClass where
  | network
  | retryLater (secs : Int)
  | ordinary
  | abort
deriving DecidableEq

/-- Which handler of lines 850-867 catches which exception. -/
def classify : PyExc → ExcClass
  | .httpError => .network
  | .socketError => .network
  | .configException => .network
  | .skipTicket s => .retryLater s
  | .stageFailure _ => .ordinary
  | .processAbort _ => .abort

/-- What one configured plugin invocation does (lines 798-806): raise an
exception (caught there), return a value that is not a `PluginResult`
(such as `None`), or return a `PluginResult`, which carries its pass/fail
status, an optional new baseline and optional report data (both payloads
modelled as opaque ints). -/
inductive PluginOutcome where
  | raises
  | retNonResult
  | retResult (passed : Bool) (baseline : Option Int) (data : Option Int)
deriving DecidableEq

/-- The entry one plugin contributes to `plugins_results`
(lines 807-820): a raising plugin and a non-`PluginResult` return are
appended as `(name, passed, None)` with `passed` false resp. true; a
`PluginResult` carrying a baseline is appended as
`(name, status == Passed, data)`; a `PluginResult` without a baseline is
appended nowhere, because the `append` of line 817 sits inside the
`if res.baseline is not None:` block. -/
def pluginEntry (name : String) : PluginOutcome → Option (String × Bool × Option Int)
  | .raises => some (name, false, none)
  | .retNonResult => some (name, true, none)
  | .retResult p (some _) d => some (name, p, d)
  | .retResult _ none _ => none

/-- The baseline a plugin persists (the `pickle.dump` of line 814): only a
`PluginResult` carrying a baseline writes one. -/
def pluginBaselineWrite (name : String) : PluginOutcome → Option (String × Int)
  | .retResult _ (some b) _ => some (name, b)
  | _ => none

/-- The plugin loop of lines 792-827, producing `plugins_results` in
configuration order. -/
def runPlugins : List (String × PluginOutcome) → List (String × Bool × Option Int)
  | [] => []
  | (name, o) :: ps =>
    (match pluginEntry name o with
     | some e => [e]
     | none => []) ++ runPlugins ps

/-- The baselines persisted by the plugin loop, in configuration order. -/
def runPluginWrites : List (String × PluginOutcome) → List (String × Int)
  | [] => []
  | (name, o) :: ps =>
    (match pluginBaselineWrite name o with
     | some w => [w]
     | none => []) ++ runPluginWrites ps

/-- `plugins_passed = all(passed for (name, passed, data) in
plugins_results)` (line 823). -/
def pluginsPassed (ps : List (String × PluginOutcome)) : Bool :=
  (runPlugins ps).all (fun e => e.2.1)

/-- One pipeline run's inputs: the ticket id, whether the ticket lists
spkgs (line 741), the mode flags, and for each delegated external stage
whether it completes or raises (`pull_from_trac` at line 763, the
`do_or_die` build at lines 772-773, the configured plugins, and the
`do_or_die` test run at line 842). -/
structure PipelineIn where
  ticket_id : Int
  spkgs : Bool
  plugin_only : Bool
  applyR : Option PyExc
  buildR : Option PyExc
  plugins : List (String × PluginOutcome)
  testR : Option PyExc

/-- What the `try:` block of lines 736-848 ends with: the value of the
local `state` at that moment, the exception escaping the block (if any),
whether the test stage's command was invoked, the accumulated
`plugins_results`, and the `pending_status` values of the intermediate
Pending reports sent along the way (lines 768-770, 776-778, 825-827). -/
structure TryResult where
  state : String
  exc : Option PyExc
  testAttempted : Bool
  pluginsResults : List (String × Bool × Option Int)
  pendingReports : List String

/-- The `try:` block of lines 736-848.  On the spkg path the state becomes
"spkg" and the per-spkg checks swallow their own exceptions; otherwise the
state advances started → applied → built and then either the plugin-only
states or the test stage, exactly as far as the delegated actions
complete. -/
def run_try (pin : PipelineIn) : TryResult :=
  if pin.spkgs then
    ⟨"spkg", none, false, [], []⟩
  else
    match pin.applyR with
    | some e => ⟨"started", some e, false, [], []⟩
    | none =>
      let pend1 : List String := if pin.plugin_only then [] else ["applied"]
      match pin.buildR with
      | some e => ⟨"applied", some e, false, [], pend1⟩
      | none =>
        let pend2 := pend1 ++ (if pin.plugin_only then [] else ["built"])
        let results := runPlugins pin.plugins
        let passed := pluginsPassed pin.plugins
        let pend3 := pend2 ++ [if passed then "plugins_passed" else "plugins_failed"]
        if pin.plugin_only then
          ⟨if passed then "plugins" else "plugins_failed", none, false, results, pend3⟩
        else
          match pin.testR with
          | some e => ⟨"built", some e, true, results, pend3⟩
          | none =>
            ⟨if passed then "tested" else "tests_passed_plugins_failed",
             none, true, results, pend3⟩

/-! ## The report retry loop (lines 869-881) and report_ticket (lines 983-1041) -/

/-- The retry loop `for _ in range(5)`: `deliver i` tells whether the
i-th attempt of `report_ticket` succeeds (false meaning it raises
`IOError`); after every failing attempt the worker sleeps the configured
idle delay.  Returns (attempts made, delivered, sleeps). -/
def reportLoopGo (deliver : Nat → Bool) : List Nat → Nat × Bool × Nat
  | [] => (0, false, 0)
  | i :: rest =>
    if deliver i then (1, true, 0)
    else
      let r := reportLoopGo deliver rest
      (r.1 + 1, r.2.1, r.2.2 + 1)

/-- The report retry loop of lines 869-881: up to five attempts. -/
def reportLoop (deliver : Nat → Bool) : Nat × Bool × Nat :=
  reportLoopGo deliver (List.range 5)

/-- The externally visible actions of one `report_ticket` call
(lines 983-1041): the report document is always built; the history line is
written exactly for non-Pending statuses (line 1023); the multi-part POST
of line 1041 is performed unless `dry_run` is set and the status is not
"Pending" (line 1040). -/
structure ReportAction where
  built : Bool
  historyWritten : Bool
  delivered : Bool
deriving DecidableEq

/-- The condition structure of `report_ticket` (lines 983-1041). -/
def report_ticket_action (dry_run : Bool) (st : String) : ReportAction :=
  ⟨true, !(st == "Pending"), !dry_run || st == "Pending"⟩

/-! ## test_a_ticket assembled (lines 736-885) -/

/-- The observable outcome of one `test_a_ticket` run from the start of
the `try:` block: the final `state`, the skip ledger, the exception the
call re-raises (only the bare `except:` path re-raises), the status
reported by the final report loop (`none` when the run re-raises before
reaching it), the report loop's attempt/delivery/sleep counts, and the
pipeline observables. -/
structure RunOut where
  state : String
  to_skip : List (Int × Int)
  raised : Option PyExc
  reported : Option String
  reportAttempts : Nat
  reportDelivered : Bool
  reportSleeps : Nat
  testAttempted : Bool
  pluginsResults : List (String × Bool × Option Int)

/-- Lines 736-885 of `test_a_ticket`: run the `try:` block, apply the
handlers of lines 850-867 (network classes: one-hour skip entry and state
"network_error"; `SkipTicket`: skip entry for the carried delay and state
"skipped"; any other `Exception`: logged only; non-`Exception` abort:
twelve-hour skip entry, re-raise, and no report), then run the report
retry loop on `status[state]`.  The spkg path books its twelve-hour skip
entry (line 754) inside the `try:` block. -/
def test_a_ticket_model (pin : PipelineIn) (now : Int) (toSkip : List (Int × Int))
    (deliver : Nat → Bool) : RunOut :=
  let tr := run_try pin
  let sk1 := if pin.spkgs then skipSet pin.ticket_id (now + 43200) toSkip else toSkip
  let afterHandlers : String × List (Int × Int) × Option PyExc :=
    match tr.exc with
    | none => (tr.state, sk1, none)
    | some e =>
      match classify e with
      | .network => ("network_error", skipSet pin.ticket_id (now + 3600) sk1, none)
      | .retryLater s => ("skipped", skipSet pin.ticket_id (now + s) sk1, none)
      | .ordinary => (tr.state, sk1, none)
      | .abort => (tr.state, skipSet pin.ticket_id (now + 43200) sk1, some e)
  match afterHandlers with
  | (st, sk, some e) =>
    ⟨st, sk, some e, none, 0, false, 0, tr.testAttempted, tr.pluginsResults⟩
  | (st, sk, none) =>
    let rl := reportLoop deliver
    ⟨st, sk, none, statusTable st, rl.1, rl.2.1, rl.2.2,
     tr.testAttempted, tr.pluginsResults⟩

/-! ## Definitions following the claims' words (for the refutations) -/

/-- Follows the claim C2's words, not the source: a per-field vector whose
value on a field is 0 when the two fingerprints differ there and 1 when
they match. -/
def specCompareMachines (a b : List String) (machine_match : Option Nat) : List Int :=
  let a1 := match machine_match with | some m => a.take m | none => a
  let b1 := match machine_match with | some m => b.take m | none => b
  (a1.zip b1).map (fun p => if p.1 = p.2 then 1 else 0)

/-- Follows the claim C2's words, not the source: combining two uniqueness
vectors by taking, for each field position independently, the minimum. -/
def specFieldwiseMin (u v : List Int) : List Int :=
  List.zipWith min u v

/-- Follows the claim C7's words, not the source: the individual
per-plugin passed outcome (a raising plugin counts as failed). -/
def specPluginPassed : PluginOutcome → Bool
  | .raises => false
  | .retNonResult => true
  | .retResult p _ _ => p

/-- Follows the claim C7's words, not the source: the logical AND of the
individual per-plugin passed outcomes. -/
def specAllPassed (ps : List (String × PluginOutcome)) : Bool :=
  ps.all (fun p => specPluginPassed p.2)

/-! ## Concrete sample data for the witnesses and counterexamples -/

/-- A sample configuration with the default bonus table, one trusted
author and a five-field fingerprint. -/
def sampleCfg : Config := ⟨defaultBonus, ["alice"], ["A", "B", "C", "D", "E"], 5⟩

/-- A git oracle under which the local base is one commit ahead of the
recorded base "g". -/
def gitAhead : String → Option Int := fun s => if s = "g" then some 1 else none

/-- A git oracle under which the local base coincides with the recorded
base "g". -/
def gitSame : String → Option Int := fun s => if s = "g" then some 0 else none

/-- A prior report from a machine identical to `sampleCfg`'s. -/
def sameMachineReport : Report := ⟨["A", "B", "C", "D", "E"], "TestsPassed", some "g"⟩

/-- A prior report from a machine differing from `sampleCfg`'s on the
first field only. -/
def diffFirstReport : Report := ⟨["X", "B", "C", "D", "E"], "TestsPassed", some "g"⟩

/-- A prior report from a machine differing from `sampleCfg`'s on the
second field only. -/
def diffSecondReport : Report := ⟨["A", "Y", "C", "D", "E"], "TestsPassed", some "g"⟩

/-- A prior report that records no base commit identity. -/
def noBaseReport : Report := ⟨["A", "B", "C", "D", "E"], "TestsPassed", none⟩

/-- A testable ticket (id 1) with one identical-machine prior report. -/
def sampleTicket : Ticket :=
  ⟨1, some "b", "needs_review", "sage-6.4", ["alice"], [], none, "major", false,
   [sameMachineReport]⟩

/-- A testable ticket whose one prior report differs on the first
fingerprint field. -/
def oneDiffTicket : Ticket :=
  ⟨1, some "b", "needs_review", "", [], [], none, "", false, [diffFirstReport]⟩

/-- A testable ticket with two prior reports differing on distinct
fingerprint fields. -/
def twoDiffTicket : Ticket :=
  ⟨1, some "b", "needs_review", "", [], [], none, "", false,
   [diffFirstReport, diffSecondReport]⟩

/-- A testable ticket whose first prior report lacks a base commit
identity. -/
def noBaseTicket : Ticket :=
  ⟨1, some "b", "needs_review", "", [], [], none, "", false, [noBaseReport]⟩

/-- A testable ticket (id 5) with no prior reports, for probing the skip
ledger. -/
def skipProbeTicket : Ticket :=
  ⟨5, some "b", "needs_review", "", [], [], none, "", false, []⟩

/-- A testable ticket with id 1 and no prior reports. -/
def pairTicket1 : Ticket :=
  ⟨1, some "b", "needs_review", "", [], [], none, "", false, []⟩

/-- A testable ticket identical to `pairTicket1` except for its id 2. -/
def pairTicket2 : Ticket :=
  ⟨2, some "b", "needs_review", "", [], [], none, "", false, []⟩

/-- A configuration with no bonuses, under which `pairTicket1` and
`pairTicket2` receive identical uniqueness and rating. -/
def flatCfg : Config := ⟨fun _ => 0, [], ["A"], 5⟩

/-- Three configured plugins: one passing with a baseline, one failing
without a baseline, one returning a non-PluginResult value. -/
def samplePlugins : List (String × PluginOutcome) :=
  [("p1", .retResult true (some 7) (some 1)),
   ("p2", .retResult false none none),
   ("p3", .retNonResult)]

/-- A pipeline input whose build stage raises an ordinary stage failure
after the apply stage succeeded. -/
def buildFailPin : PipelineIn := ⟨3, false, false, none, some (.stageFailure 0), [], none⟩

/-- A pipeline input whose apply stage raises a network-class error. -/
def networkFailPin : PipelineIn := ⟨7, false, false, some .httpError, none, [], none⟩

/-! ## Helper lemmas on the Python 2 ordering -/

theorem intListLt_irrefl (l : List Int) : intListLt l l = false := by
  induction l with
  | nil => rfl
  | cons x xs ih => simp [intListLt, ih]

theorem pyUniqLt_irrefl (u : PyUniq) : pyUniqLt u u = false := by
  cases u <;> simp [pyUniqLt, intListLt_irrefl]

/-- An all-zero vector, as a Python list: the shape of `uniqueness` that
makes `rate_ticket` declare the ticket fully covered. -/
def azList (u : PyUniq) : Prop :=
  ∃ l, u = .pyList l ∧ ∀ x ∈ l, x = 0

/-- A list or tuple with nonnegative entries: every value the uniqueness
fold of `rate_ticket` manipulates has this shape. -/
def nonnegU (u : PyUniq) : Prop :=
  (∃ l, u = .pyList l ∧ ∀ x ∈ l, 0 ≤ x) ∨ (∃ l, u = .pyTuple l ∧ ∀ x ∈ l, 0 ≤ x)

theorem azList_nonnegU {u : PyUniq} (h : azList u) : nonnegU u := by
  obtain ⟨l, rfl, hl⟩ := h
  exact Or.inl ⟨l, rfl, fun x hx => le_of_eq (hl x hx).symm⟩

theorem azList_pyAny {u : PyUniq} (h : azList u) : pyAny u = false := by
  obtain ⟨l, rfl, hl⟩ := h
  simp only [pyAny, List.any_eq_false]
  intro x hx
  simp [hl x hx]

theorem intListLt_zero_of_lt (m z : List Int) (h : intListLt m z = true)
    (hz : ∀ x ∈ z, x = 0) (hm : ∀ x ∈ m, 0 ≤ x) : ∀ x ∈ m, x = 0 := by
  induction m generalizing z with
  | nil => intro x hx; cases hx
  | cons a as ih =>
    cases z with
    | nil => simp [intListLt] at h
    | cons b bs =>
      have hb : b = 0 := hz b (by simp)
      have ha : 0 ≤ a := hm a (by simp)
      subst hb
      unfold intListLt at h
      split at h
      · exfalso; omega
      · split at h
        · cases h
        · intro x hx
          rcases List.mem_cons.mp hx with rfl | hx'
          · omega
          · exact ih bs h (fun y hy => hz y (List.mem_cons_of_mem _ hy))
              (fun y hy => hm y (List.mem_cons_of_mem _ hy)) x hx'

theorem intListLt_zero_of_not_lt (z m : List Int) (h : intListLt z m = false)
    (hz : ∀ x ∈ z, x = 0) (hm : ∀ x ∈ m, 0 ≤ x) : ∀ x ∈ m, x = 0 := by
  induction z generalizing m with
  | nil =>
    cases m with
    | nil => intro x hx; cases hx
    | cons a as => simp [intListLt] at h
  | cons b bs ih =>
    have hb : b = 0 := hz b (by simp)
    subst hb
    cases m with
    | nil => intro x hx; cases hx
    | cons a as =>
      have ha : 0 ≤ a := hm a (by simp)
      unfold intListLt at h
      split at h
      · cases h
      · split at h
        · exfalso; omega
        · intro x hx
          rcases List.mem_cons.mp hx with rfl | hx'
          · omega
          · exact ih as h (fun y hy => hz y (List.mem_cons_of_mem _ hy))
              (fun y hy => hm y (List.mem_cons_of_mem _ hy)) x hx'

theorem pyMin_choice (u v : PyUniq) : pyMin u v = u ∨ pyMin u v = v := by
  unfold pyMin
  split
  · exact Or.inr rfl
  · exact Or.inl rfl

theorem pyMin_nonneg {u v : PyUniq} (hu : nonnegU u) (hv : nonnegU v) :
    nonnegU (pyMin u v) := by
  rcases pyMin_choice u v with h | h <;> rw [h] <;> assumption

theorem pyMin_az_right {u v : PyUniq} (hu : nonnegU u) (hv : azList v) :
    azList (pyMin u v) := by
  obtain ⟨z, rfl, hz⟩ := hv
  unfold pyMin
  split
  · exact ⟨z, rfl, hz⟩
  · rename_i hlt
    rcases hu with ⟨m, rfl, hm⟩ | ⟨m, rfl, hm⟩
    · refine ⟨m, rfl, ?_⟩
      apply intListLt_zero_of_not_lt z m ?_ hz hm
      simpa [pyUniqLt] using hlt
    · exfalso
      apply hlt
      simp [pyUniqLt, pyRank]

theorem pyMin_az_left {u v : PyUniq} (hu : azList u) (hv : nonnegU v) :
    azList (pyMin u v) := by
  obtain ⟨z, rfl, hz⟩ := hu
  unfold pyMin
  split
  · rename_i hlt
    rcases hv with ⟨m, rfl, hm⟩ | ⟨m, rfl, hm⟩
    · exact ⟨m, rfl, intListLt_zero_of_lt m z (by simpa [pyUniqLt] using hlt) hz hm⟩
    · exfalso
      simp [pyUniqLt, pyRank] at hlt
  · exact ⟨z, rfl, hz⟩

theorem foldl_pyMin_az_keep {α : Type} (f : α → PyUniq) (rs : List α) (u0 : PyUniq)
    (h0 : azList u0) (hf : ∀ r ∈ rs, nonnegU (f r)) :
    azList (rs.foldl (fun u r => pyMin u (f r)) u0) := by
  induction rs generalizing u0 with
  | nil => exact h0
  | cons r rs ih =>
    rw [List.foldl_cons]
    exact ih _ (pyMin_az_left h0 (hf r (by simp)))
      (fun y hy => hf y (List.mem_cons_of_mem _ hy))

theorem foldl_pyMin_az {α : Type} (f : α → PyUniq) (rs : List α) (u0 : PyUniq)
    (h0 : nonnegU u0) (hf : ∀ r ∈ rs, nonnegU (f r))
    (hex : ∃ r ∈ rs, azList (f r)) :
    azList (rs.foldl (fun u r => pyMin u (f r)) u0) := by
  induction rs generalizing u0 with
  | nil => obtain ⟨r, hr, _⟩ := hex; cases hr
  | cons r rs ih =>
    rw [List.foldl_cons]
    obtain ⟨r', hr', haz⟩ := hex
    rcases List.mem_cons.mp hr' with rfl | hmem
    · exact foldl_pyMin_az_keep f rs _ (pyMin_az_right h0 haz)
        (fun y hy => hf y (List.mem_cons_of_mem _ hy))
    · exact ih _ (pyMin_nonneg h0 (hf r (by simp)))
        (fun y hy => hf y (List.mem_cons_of_mem _ hy)) ⟨r', hmem, haz⟩

/-! ## Helper lemmas on compare_machines and the report scan -/

theorem mem_zip_self {α : Type} (l : List α) : ∀ p ∈ l.zip l, p.1 = p.2 := by
  induction l with
  | nil => intro p hp; cases hp
  | cons x xs ih =>
    intro p hp
    rw [List.zip_cons_cons] at hp
    rcases List.mem_cons.mp hp with rfl | hp'
    · rfl
    · exact ih p hp'

theorem compare_machines_nonneg (a b : List String) (mm : Option Nat) :
    ∀ x ∈ compare_machines a b mm, 0 ≤ x := by
  intro x hx
  simp only [compare_machines] at hx
  split at hx
  · rcases List.mem_append.mp hx with hx' | hx'
    · obtain ⟨p, _, rfl⟩ := List.mem_map.mp hx'
      split <;> omega
    · rcases List.mem_singleton.mp hx' with rfl
      omega
  · obtain ⟨p, _, rfl⟩ := List.mem_map.mp hx
    split <;> omega

theorem compare_machines_take_eq (a b : List String) (m : Nat)
    (h : a.take m = b.take m) :
    ∀ x ∈ compare_machines a b (some m), x = 0 := by
  intro x hx
  simp only [compare_machines] at hx
  rw [← h] at hx
  rw [if_neg (by simp)] at hx
  obtain ⟨p, hp, rfl⟩ := List.mem_map.mp hx
  rw [if_pos (mem_zip_self _ p hp)]

theorem reportVec_nonneg (cfg : Config) (oib : Int) (r : Report) :
    nonnegU (reportVec cfg oib r) := by
  simp only [reportVec]
  split
  · exact Or.inr ⟨[0, 0, 0, 0, 1], rfl, by norm_num⟩
  · exact Or.inl ⟨_, rfl, compare_machines_nonneg _ _ _⟩

theorem reportVec_az_of_same (cfg : Config) (r : Report)
    (h : r.machine.take cfg.machine_match = cfg.machine.take cfg.machine_match) :
    azList (reportVec cfg 0 r) := by
  simp only [reportVec]
  rw [if_neg (by simp)]
  exact ⟨_, rfl, compare_machines_take_eq _ _ _ h⟩

theorem scanReports_ok_uniq (cfg : Config) (git : String → Option Int)
    (rs : List Report) :
    ∀ st : LoopSt, (∀ r ∈ rs, truthyStr r.git_base = true) →
      ∃ st', scanReports cfg git st rs = .ok st' ∧
        st'.uniqueness =
          rs.foldl (fun u r => pyMin u (reportVec cfg (reportOib git r) r)) st.uniqueness := by
  induction rs with
  | nil => exact fun st _ => ⟨st, rfl, rfl⟩
  | cons r rs ih =>
    intro st h
    have hr : truthyStr r.git_base = true := h r (by simp)
    have hstep : scanReport cfg git st r =
        .ok ⟨(if r.status ≠ "ApplyFailed" then
                (st.rating + cfg.bonus "behind" * reportOib git r) + cfg.bonus "applies"
              else st.rating + cfg.bonus "behind" * reportOib git r) - cfg.bonus "unique",
             pyMin st.uniqueness (reportVec cfg (reportOib git r) r),
             some (reportOib git r)⟩ := by
      simp [scanReport, hr]
    obtain ⟨st', hscan, huniq⟩ :=
      ih _ (fun y hy => h y (List.mem_cons_of_mem _ hy))
    refine ⟨st', ?_, ?_⟩
    · simpa [scanReports, hstep] using hscan
    · rw [List.foldl_cons]
      exact huniq

theorem compare_machines_getElem (a b : List String) (m i : Nat) (x y : String)
    (hx : (a.take m)[i]? = some x) (hy : (b.take m)[i]? = some y) :
    (compare_machines a b (some m))[i]? = some (if x = y then 0 else 1) := by
  have hxl : i < (a.take m).length := (List.getElem?_eq_some.mp hx).1
  have hyl : i < (b.take m).length := (List.getElem?_eq_some.mp hy).1
  have hzip : ((a.take m).zip (b.take m))[i]? = some (x, y) :=
    List.getElem?_zip_eq_some.mpr ⟨hx, hy⟩
  have hmap : (((a.take m).zip (b.take m)).map
      (fun p => if p.1 = p.2 then (0 : Int) else 1))[i]? = some (if x = y then 0 else 1) := by
    rw [List.getElem?_map, hzip]
    rfl
  have hlen : i < (((a.take m).zip (b.take m)).map
      (fun p => if p.1 = p.2 then (0 : Int) else 1)).length := by
    rw [List.length_map, List.length_zip]
    exact Nat.lt_min.mpr ⟨hxl, hyl⟩
  simp only [compare_machines]
  split
  · rw [List.getElem?_append_left hlen, hmap]
  · exact hmap

/-! ## Helper lemmas on rate_ticket -/

/-- A ticket that passes the id, branch, status, milestone and
trusted-identity rules reaches the report-scanning part of
`rate_ticket`. -/
theorem rate_ticket_guards (cfg : Config) (git : String → Option Int) (now : Int)
    (sk : List (Int × Int)) (t : Ticket)
    (hid : t.id ≠ 0) (hbr : truthyStr t.git_branch = true)
    (hst : t.status ∈ allowedStatuses) (hml : t.milestone ∉ excludedMilestones)
    (hau : ∀ a ∈ t.authors, a ∈ cfg.trusted_authors)
    (hpa : ∀ p ∈ t.participants, p ∈ cfg.trusted_authors) :
    rate_ticket cfg git now sk t = rate_ticket_scan cfg git now sk t (prelimRating cfg t) := by
  unfold rate_ticket
  rw [if_neg hid, if_neg (by simp [hbr]), if_neg (not_not_intro hst), if_neg hml,
    if_neg (not_not_intro hau), if_neg (not_not_intro hpa)]
  rfl

theorem skipGet_skipDel (k : Int) (sk : List (Int × Int)) :
    skipGet k (skipDel k sk) = none := by
  induction sk with
  | nil => rfl
  | cons p sk ih =>
    obtain ⟨k1, v1⟩ := p
    by_cases h : k1 = k
    · have hd : skipDel k ((k1, v1) :: sk) = skipDel k sk := by
        simp [skipDel, List.filter_cons, h]
      rw [hd]
      exact ih
    · have hd : skipDel k ((k1, v1) :: sk) = (k1, v1) :: skipDel k sk := by
        simp [skipDel, List.filter_cons, h]
      have hb : (k == k1) = false := by
        simp
        exact fun hh => h hh.symm
      rw [hd]
      calc skipGet k ((k1, v1) :: skipDel k sk)
          = skipGet k (skipDel k sk) := by simp [skipGet, List.lookup, hb]
        _ = none := ih

/-- The third component of every score `rate_ticket` returns is the
negated ticket id. -/
theorem rate_res_tiebreak (cfg : Config) (git : String → Option Int) (now : Int)
    (sk : List (Int × Int)) (t : Ticket) (u : PyUniq) (r b : Int)
    (h : (rate_ticket cfg git now sk t).res = .ok (some (u, r, b))) : b = -t.id := by
  unfold rate_ticket rate_ticket_scan prune_pending at h
  split at h
  · rename_i h0
    simp at h
    obtain ⟨-, -, h3⟩ := h
    rw [h0]
    omega
  · split at h
    · simp at h
    · split at h
      · simp at h
      · split at h
        · simp at h
        · split at h
          · simp at h
          · split at h
            · simp at h
            · dsimp only at h
              split at h
              · simp at h
              · split at h
                · simp at h
                · split at h
                  · split at h
                    · simp at h
                      obtain ⟨-, -, h3⟩ := h
                      omega
                    · simp at h
                  · simp at h
                    obtain ⟨-, -, h3⟩ := h
                    omega

/-! ## Helper lemmas on the report retry loop -/

theorem reportLoopGo_le (d : Nat → Bool) (l : List Nat) :
    (reportLoopGo d l).1 ≤ l.length := by
  induction l with
  | nil => simp [reportLoopGo]
  | cons i rest ih =>
    simp only [reportLoopGo, List.length_cons]
    split
    · omega
    · dsimp only
      omega

theorem reportLoopGo_sleeps (d : Nat → Bool) (l : List Nat) :
    (reportLoopGo d l).1 =
      (reportLoopGo d l).2.2 + (if (reportLoopGo d l).2.1 then 1 else 0) := by
  induction l with
  | nil => simp [reportLoopGo]
  | cons i rest ih =>
    simp only [reportLoopGo]
    split
    · simp
    · dsimp only
      rw [ih]
      omega

/-! ## Helper lemmas on the plugin loop -/

theorem runPlugins_filterMap (ps : List (String × PluginOutcome)) :
    runPlugins ps = ps.filterMap (fun p => pluginEntry p.1 p.2) := by
  induction ps with
  | nil => rfl
  | cons p ps ih =>
    obtain ⟨name, o⟩ := p
    simp only [runPlugins, List.filterMap_cons]
    cases h : pluginEntry name o <;> simp [h, ih]

theorem runPluginWrites_filterMap (ps : List (String × PluginOutcome)) :
    runPluginWrites ps = ps.filterMap (fun p => pluginBaselineWrite p.1 p.2) := by
  induction ps with
  | nil => rfl
  | cons p ps ih =>
    obtain ⟨name, o⟩ := p
    simp only [runPluginWrites, List.filterMap_cons]
    cases h : pluginBaselineWrite name o <;> simp [h, ih]

/-! ## Claim theorems -/

/-- C3: the pipeline reports the terminal status given by the fixed
state-to-status table (started maps to ApplyFailed, applied to
BuildFailed, built to TestsFailed, tested to TestsPassed,
tests_passed_plugins_failed to PluginFailed, plugins to PluginOnly,
plugins_failed to PluginOnlyFailed, spkg to Spkg, network_error to
Pending, skipped to Pending), the state at the moment an exception
propagates being exactly the furthest stage that completed successfully;
in particular, in every run in which the apply stage succeeds and the
build stage raises a stage failure, the reported status is BuildFailed
and the test stage is never attempted. -/
theorem pipeline_status_table_and_build_failure :
    (statusTable "started" = some "ApplyFailed" ∧
     statusTable "applied" = some "BuildFailed" ∧
     statusTable "built" = some "TestsFailed" ∧
     statusTable "tested" = some "TestsPassed" ∧
     statusTable "tests_passed_plugins_failed" = some "PluginFailed" ∧
     statusTable "plugins" = some "PluginOnly" ∧
     statusTable "plugins_failed" = some "PluginOnlyFailed" ∧
     statusTable "spkg" = some "Spkg" ∧
     statusTable "network_error" = some "Pending" ∧
     statusTable "skipped" = some "Pending")
    ∧ (∀ (pin : PipelineIn) (now : Int) (sk : List (Int × Int)) (d : Nat → Bool) (c : Nat),
        pin.spkgs = false → pin.applyR = some (.stageFailure c) →
        (test_a_ticket_model pin now sk d).state = "started" ∧
        (test_a_ticket_model pin now sk d).reported = some "ApplyFailed")
    ∧ (∀ (pin : PipelineIn) (now : Int) (sk : List (Int × Int)) (d : Nat → Bool) (c : Nat),
        pin.spkgs = false → pin.applyR = none → pin.buildR = some (.stageFailure c) →
        (test_a_ticket_model pin now sk d).state = "applied" ∧
        (test_a_ticket_model pin now sk d).reported = some "BuildFailed" ∧
        (test_a_ticket_model pin now sk d).testAttempted = false)
    ∧ (∀ (pin : PipelineIn) (now : Int) (sk : List (Int × Int)) (d : Nat → Bool) (c : Nat),
        pin.spkgs = false → pin.applyR = none → pin.buildR = none →
        pin.plugin_only = false → pin.testR = some (.stageFailure c) →
        (test_a_ticket_model pin now sk d).state = "built" ∧
        (test_a_ticket_model pin now sk d).reported = some "TestsFailed" ∧
        (test_a_ticket_model pin now sk d).testAttempted = true) := by
  refine ⟨⟨rfl, rfl, rfl, rfl, rfl, rfl, rfl, rfl, rfl, rfl⟩, ?_, ?_, ?_⟩
  · intro pin now sk d c hsp ha
    simp [test_a_ticket_model, run_try, hsp, ha, classify]
    rfl
  · intro pin now sk d c hsp ha hb
    simp [test_a_ticket_model, run_try, hsp, ha, hb, classify]
    rfl
  · intro pin now sk d c hsp ha hb hpo ht
    simp [test_a_ticket_model, run_try, hsp, ha, hb, hpo, ht, classify]
    rfl

/-- Witness for C3 at a concrete pipeline input whose build stage raises
after a successful apply stage. -/
theorem pipeline_status_table_and_build_failure_witness :
    (test_a_ticket_model buildFailPin 0 [] (fun _ => true)).state = "applied" ∧
    (test_a_ticket_model buildFailPin 0 [] (fun _ => true)).reported = some "BuildFailed" ∧
    (test_a_ticket_model buildFailPin 0 [] (fun _ => true)).testAttempted = false :=
  pipeline_status_table_and_build_failure.2.2.1 buildFailPin 0 [] (fun _ => true) 0 rfl rfl rfl

/-- C4: during the processing of any ticket, a network/transport-class
failure records a one-hour skip entry and sets final state network_error
(reported as Pending); an explicit retry-later signal carrying a delay
records a skip entry for exactly that delay and sets final state skipped
(reported as Pending); any other ordinary exception is logged, sets no
skip entry and leaves the state reached at the point of failure; and an
unclassified non-exception abort records a 12-hour skip entry before
re-raising. -/
theorem pipeline_failure_classification :
    ∀ (pin : PipelineIn) (now : Int) (sk : List (Int × Int)) (d : Nat → Bool) (e : PyExc),
      pin.spkgs = false → (run_try pin).exc = some e →
      (classify e = .network →
        (test_a_ticket_model pin now sk d).state = "network_error" ∧
        (test_a_ticket_model pin now sk d).to_skip = skipSet pin.ticket_id (now + 3600) sk ∧
        (test_a_ticket_model pin now sk d).reported = some "Pending" ∧
        (test_a_ticket_model pin now sk d).raised = none) ∧
      (∀ s : Int, classify e = .retryLater s →
        (test_a_ticket_model pin now sk d).state = "skipped" ∧
        (test_a_ticket_model pin now sk d).to_skip = skipSet pin.ticket_id (now + s) sk ∧
        (test_a_ticket_model pin now sk d).reported = some "Pending" ∧
        (test_a_ticket_model pin now sk d).raised = none) ∧
      (classify e = .ordinary →
        (test_a_ticket_model pin now sk d).state = (run_try pin).state ∧
        (test_a_ticket_model pin now sk d).to_skip = sk ∧
        (test_a_ticket_model pin now sk d).raised = none) ∧
      (classify e = .abort →
        (test_a_ticket_model pin now sk d).to_skip = skipSet pin.ticket_id (now + 43200) sk ∧
        (test_a_ticket_model pin now sk d).raised = some e ∧
        (test_a_ticket_model pin now sk d).reported = none) := by
  intro pin now sk d e hsp hexc
  refine ⟨?_, ?_, ?_, ?_⟩
  · intro hc
    simp [test_a_ticket_model, hexc, hsp, hc]
    rfl
  · intro s hc
    simp [test_a_ticket_model, hexc, hsp, hc]
    rfl
  · intro hc
    simp [test_a_ticket_model, hexc, hsp, hc]
  · intro hc
    simp [test_a_ticket_model, hexc, hsp, hc]

/-- Witness for C4 at a concrete pipeline input whose apply stage raises a
network-class error. -/
theorem pipeline_failure_classification_witness :
    (test_a_ticket_model networkFailPin 5 [] (fun _ => true)).state = "network_error" ∧
    (test_a_ticket_model networkFailPin 5 [] (fun _ => true)).to_skip = [(7, 3605)] ∧
    (test_a_ticket_model networkFailPin 5 [] (fun _ => true)).reported = some "Pending" ∧
    (test_a_ticket_model networkFailPin 5 [] (fun _ => true)).raised = none :=
  (pipeline_failure_classification networkFailPin 5 [] (fun _ => true) .httpError rfl rfl).1 rfl

/-- C5: after the pipeline concludes without re-raising, delivery of the
final report is attempted at most 5 times, the worker sleeps the idle
delay after exactly the attempts that fail with an I/O-class error, a run
in which all five attempts fail ends with the error logged and nothing
raised, the spec scenario of four failures then one success makes exactly
five attempts and proceeds, and under dry_run a Pending report is still
delivered while a terminal-status report is built and logged but not
delivered. -/
theorem report_retry_and_dry_run :
    (∀ d : Nat → Bool, (reportLoop d).1 ≤ 5)
    ∧ (∀ d : Nat → Bool,
        (reportLoop d).1 = (reportLoop d).2.2 + (if (reportLoop d).2.1 then 1 else 0))
    ∧ (∀ d : Nat → Bool, (∀ i, i < 5 → d i = false) → reportLoop d = (5, false, 5))
    ∧ (∀ d : Nat → Bool, (∀ i, i < 4 → d i = false) → d 4 = true →
        reportLoop d = (5, true, 4))
    ∧ (∀ (pin : PipelineIn) (now : Int) (sk : List (Int × Int)) (d : Nat → Bool),
        (run_try pin).exc = none →
        (test_a_ticket_model pin now sk d).raised = none ∧
        (test_a_ticket_model pin now sk d).reportAttempts = (reportLoop d).1 ∧
        (test_a_ticket_model pin now sk d).reportDelivered = (reportLoop d).2.1)
    ∧ (report_ticket_action true "Pending").delivered = true
    ∧ (∀ st : String, st ≠ "Pending" →
        (report_ticket_action true st).delivered = false ∧
        (report_ticket_action true st).historyWritten = true ∧
        (report_ticket_action true st).built = true) := by
  refine ⟨?_, ?_, ?_, ?_, ?_, rfl, ?_⟩
  · intro d
    have h := reportLoopGo_le d (List.range 5)
    simpa [reportLoop] using h
  · intro d
    exact reportLoopGo_sleeps d (List.range 5)
  · intro d h
    have h0 := h 0 (by omega)
    have h1 := h 1 (by omega)
    have h2 := h 2 (by omega)
    have h3 := h 3 (by omega)
    have h4 := h 4 (by omega)
    have hr : List.range 5 = [0, 1, 2, 3, 4] := rfl
    simp [reportLoop, hr, reportLoopGo, h0, h1, h2, h3, h4]
  · intro d h h4
    have h0 := h 0 (by omega)
    have h1 := h 1 (by omega)
    have h2 := h 2 (by omega)
    have h3 := h 3 (by omega)
    have hr : List.range 5 = [0, 1, 2, 3, 4] := rfl
    simp [reportLoop, hr, reportLoopGo, h0, h1, h2, h3, h4]
  · intro pin now sk d hexc
    simp [test_a_ticket_model, hexc, reportLoop]
  · intro st hst
    refine ⟨?_, ?_, rfl⟩ <;> simp [report_ticket_action, hst]

/-- Witness for C5: four failing delivery attempts followed by one
success make exactly five attempts with four sleeps, and a dry-run
terminal report is not delivered. -/
theorem report_retry_and_dry_run_witness :
    reportLoop (fun i => decide (4 ≤ i)) = (5, true, 4) ∧
    (report_ticket_action true "TestsPassed").delivered = false :=
  ⟨report_retry_and_dry_run.2.2.2.1 (fun i => decide (4 ≤ i))
      (fun i hi => decide_eq_false (by omega)) (by decide),
   (report_retry_and_dry_run.2.2.2.2.2.2 "TestsPassed" (by decide)).1⟩

/-- C7 counterexample: with three configured plugins reporting
(pass with baseline, fail as a PluginResult without baseline,
non-PluginResult return), the details list has two entries, not one per
configured plugin, and the aggregated plugins_passed flag is true even
though the AND of the individual per-plugin outcomes is false. -/
theorem plugin_aggregation_baseline_none_dropped :
    runPlugins samplePlugins = [("p1", true, some 1), ("p3", true, none)] ∧
    (runPlugins samplePlugins).length = 2 ∧
    samplePlugins.length = 3 ∧
    (runPlugins samplePlugins).length ≠ samplePlugins.length ∧
    pluginsPassed samplePlugins = true ∧
    specAllPassed samplePlugins = false ∧
    pluginsPassed samplePlugins ≠ specAllPassed samplePlugins := by
  refine ⟨rfl, rfl, rfl, by decide, rfl, rfl, by decide⟩

/-- C7 (amended): the details list contains, in configuration order, one
entry for each configured plugin that raises, returns a non-PluginResult
value, or returns a PluginResult carrying a baseline, while a plugin
returning a PluginResult without a baseline contributes no entry; the
aggregated plugins_passed flag is the AND of the passed outcomes of the
contributed entries; and a plugin that raises contributes an entry marked
failed with no data and causes no baseline update. -/
theorem plugin_aggregation_characterization :
    (∀ ps : List (String × PluginOutcome),
      runPlugins ps = ps.filterMap (fun p => pluginEntry p.1 p.2) ∧
      pluginsPassed ps = (ps.filterMap (fun p => pluginEntry p.1 p.2)).all (fun e => e.2.1) ∧
      runPluginWrites ps = ps.filterMap (fun p => pluginBaselineWrite p.1 p.2))
    ∧ (∀ name : String,
        pluginEntry name .raises = some (name, false, none) ∧
        pluginBaselineWrite name .raises = none)
    ∧ (∀ (name : String) (p : Bool) (dta : Option Int),
        pluginEntry name (.retResult p none dta) = none) := by
  refine ⟨fun ps => ⟨runPlugins_filterMap ps, ?_, runPluginWrites_filterMap ps⟩,
    fun name => ⟨rfl, rfl⟩, fun name p dta => rfl⟩
  rw [pluginsPassed, runPlugins_filterMap]

/-- C9: the claim says rate_ticket returns normally (a score or None) for
every input; on a ticket whose first relevant prior report records no
base commit identity, the code instead reads the unassigned local
only_in_base at line 648 and raises UnboundLocalError. -/
theorem rate_ticket_unbound_only_in_base :
    (rate_ticket sampleCfg gitAhead 0 [] noBaseTicket).res =
      .error .unboundLocalOnlyInBase := by
  rfl

/-- C10: rate_ticket leaves the ticket snapshot, and in particular every
prior report attached to it, unchanged. -/
theorem rate_ticket_preserves_inputs :
    ∀ (cfg : Config) (git : String → Option Int) (now : Int)
      (sk : List (Int × Int)) (t : Ticket),
      (rate_ticket cfg git now sk t).ticket = t ∧
      (rate_ticket cfg git now sk t).ticket.current_reports = t.current_reports := by
  intro cfg git now sk t
  have h : (rate_ticket cfg git now sk t).ticket = t := by
    unfold rate_ticket rate_ticket_scan prune_pending
    dsimp only
    repeat' split
    all_goals rfl
  exact ⟨h, by rw [h]⟩

/-- C1 counterexample: a ticket with one relevant prior report whose
machine fingerprint is identical to the worker's on all five compared
fields and whose status is TestsPassed is nevertheless rated testable
(the lines 648-649 override replaces the all-zero vector by
(0, 0, 0, 0, 1) because the worker's base is one commit ahead of the
report's recorded base), contradicting the claim that rate_ticket
returns None. -/
theorem rate_ticket_identical_machine_retested :
    (rate_ticket sampleCfg gitAhead 0 [] sampleTicket).res =
      .ok (some (.pyTuple [0, 0, 0, 0, 1], 991, -1)) ∧
    (rate_ticket sampleCfg gitAhead 0 [] sampleTicket).res ≠ .ok none := by
  refine ⟨rfl, ?_⟩
  intro h
  rw [show (rate_ticket sampleCfg gitAhead 0 [] sampleTicket).res =
      .ok (some (.pyTuple [0, 0, 0, 0, 1], 991, -1)) from rfl] at h
  simp at h

/-- C1 (amended/corrected): for every ticket (id not 0, with a git
branch, passing the status, milestone and trusted-identity rules, not
marked retry) all of whose relevant prior reports record a base commit
identity, if at least one such report has a machine fingerprint identical
to this worker's on all compared (machine_match) fields, a status that is
not an apply failure, and a recorded base from which the worker's base is
0 commits ahead, then rate_ticket returns None (not testable). -/
theorem rate_ticket_identical_machine_not_testable
    (cfg : Config) (git : String → Option Int) (now : Int)
    (sk : List (Int × Int)) (t : Ticket)
    (hid : t.id ≠ 0) (hbr : truthyStr t.git_branch = true)
    (hst : t.status ∈ allowedStatuses) (hml : t.milestone ∉ excludedMilestones)
    (hau : ∀ a ∈ t.authors, a ∈ cfg.trusted_authors)
    (hpa : ∀ p ∈ t.participants, p ∈ cfg.trusted_authors)
    (hret : t.retry = false)
    (hgb : ∀ r ∈ t.current_reports, truthyStr r.git_base = true)
    (hex : ∃ r ∈ t.current_reports,
      r.machine.take cfg.machine_match = cfg.machine.take cfg.machine_match ∧
      r.status ≠ "ApplyFailed" ∧ reportOib git r = 0) :
    (rate_ticket cfg git now sk t).res = .ok none := by
  rw [rate_ticket_guards cfg git now sk t hid hbr hst hml hau hpa]
  obtain ⟨st', hscan, huniq⟩ := scanReports_ok_uniq cfg git t.current_reports
    ⟨prelimRating cfg t, .pyTuple [100], none⟩ hgb
  have haz : azList st'.uniqueness := by
    rw [huniq]
    obtain ⟨r, hr, hmach, hstat, hoib⟩ := hex
    apply foldl_pyMin_az
    · exact Or.inr ⟨[100], rfl, by norm_num⟩
    · intro y hy
      exact reportVec_nonneg cfg (reportOib git y) y
    · refine ⟨r, hr, ?_⟩
      rw [hoib]
      exact reportVec_az_of_same cfg r hmach
  have hany : pyAny st'.uniqueness = false := azList_pyAny haz
  unfold rate_ticket_scan
  rw [hret]
  simp only [Bool.false_eq_true, if_false, hscan, hany]
  simp

/-- Witness for C1 (amended) at a concrete ticket with one
identical-machine prior report whose recorded base coincides with the
worker's base. -/
theorem rate_ticket_identical_machine_not_testable_witness :
    (rate_ticket sampleCfg gitSame 0 [] sampleTicket).res = .ok none :=
  rate_ticket_identical_machine_not_testable sampleCfg gitSame 0 [] sampleTicket
    (by decide) rfl (by decide) (by decide) (by decide) (by decide) rfl (by decide)
    ⟨sameMachineReport, by decide, by decide, by decide, rfl⟩

/-- C2 counterexample: with machines differing on the first compared
field only, the per-field vector rate_ticket puts into the score is
(1, 0, 0, 0, 0) — 1 where the fingerprints differ — not the claim's
(0, 1, 1, 1, 1); and with two reports differing on distinct fields the
combined uniqueness is the Python minimum (0, 1, 0, 0, 0) of the whole
vectors, not the field-wise minimum (0, 0, 0, 0, 0). -/
theorem uniqueness_not_spec_encoding_not_fieldwise :
    (rate_ticket sampleCfg gitSame 0 [] oneDiffTicket).res =
      .ok (some (.pyList [1, 0, 0, 0, 0], 980, -1)) ∧
    specCompareMachines diffFirstReport.machine sampleCfg.machine (some 5) =
      [0, 1, 1, 1, 1] ∧
    ([1, 0, 0, 0, 0] : List Int) ≠ [0, 1, 1, 1, 1] ∧
    (rate_ticket sampleCfg gitSame 0 [] twoDiffTicket).res =
      .ok (some (.pyList [0, 1, 0, 0, 0], 960, -1)) ∧
    specFieldwiseMin [1, 0, 0, 0, 0] [0, 1, 0, 0, 0] = [0, 0, 0, 0, 0] ∧
    ([0, 1, 0, 0, 0] : List Int) ≠ [0, 0, 0, 0, 0] := by
  refine ⟨rfl, rfl, by decide, rfl, by decide, by decide⟩

/-- C2 (amended/corrected): the per-field uniqueness vector compares the
report's fingerprint with the worker's on the truncated fields, with value
1 when the two differ on a field and 0 when they match; and the vectors
of the scanned reports (each recording a base commit identity) are folded
with Python's two-argument min — the lexicographic minimum of whole
sequences — starting from the tuple (100,), after the only_in_base
override of lines 648-649, not by a field-wise minimum. -/
theorem uniqueness_encoding_and_fold :
    (∀ (a b : List String) (m i : Nat) (x y : String),
      (a.take m)[i]? = some x → (b.take m)[i]? = some y →
      (compare_machines a b (some m))[i]? = some (if x = y then 0 else 1))
    ∧ (∀ (cfg : Config) (git : String → Option Int) (rs : List Report) (st : LoopSt),
      (∀ r ∈ rs, truthyStr r.git_base = true) →
      ∃ st', scanReports cfg git st rs = .ok st' ∧
        st'.uniqueness = rs.foldl
          (fun u r => pyMin u (reportVec cfg (reportOib git r) r)) st.uniqueness) :=
  ⟨compare_machines_getElem, fun cfg git rs st h => scanReports_ok_uniq cfg git rs st h⟩

/-- Witness for C2 (amended): on machines differing in their only field,
the vector entry is 1. -/
theorem uniqueness_encoding_and_fold_witness :
    (compare_machines ["A"] ["B"] (some 1))[0]? = some 1 := by
  simpa using uniqueness_encoding_and_fold.1 ["A"] ["B"] 1 0 "A" "B" rfl rfl

/-- C6 counterexample: with a skip entry recorded as expiring exactly at
the probe time (entry 100, probe 100), the ticket is still reported as
skipped (the code keeps the entry while `entry < now` is false), although
the claim says it is no longer skipped at or after the recorded time; and
the consultation leaves the strictly past-due entry of the unrelated
ticket 9 in the ledger. -/
theorem skip_ledger_boundary_and_stale_entries :
    (rate_ticket sampleCfg gitAhead 100 [(5, 100), (9, -50)] skipProbeTicket).res =
      .ok none ∧
    (rate_ticket sampleCfg gitAhead 100 [(5, 100), (9, -50)] skipProbeTicket).to_skip =
      [(5, 100), (9, -50)] ∧
    skipGet 9 (rate_ticket sampleCfg gitAhead 100 [(5, 100), (9, -50)] skipProbeTicket).to_skip =
      some (-50) ∧
    ((-50 : Int) < 100) := by
  refine ⟨rfl, rfl, rfl, by decide⟩

/-- C6 (amended/corrected): for a ticket that reaches the skip check
(passing the earlier rules, with no prior reports), a recorded entry
skip(id, E) makes the ticket skipped at every probe time up to and
including E; at any probe time strictly after E the consultation removes
the entry — so afterwards the ledger holds no entry for the consulted
ticket — and the ticket is rated; with no entry the ticket is rated and
the ledger is untouched.  Entries of other tickets are never removed. -/
theorem skip_ledger_consult_semantics
    (cfg : Config) (git : String → Option Int) (now : Int)
    (sk : List (Int × Int)) (t : Ticket)
    (hid : t.id ≠ 0) (hbr : truthyStr t.git_branch = true)
    (hst : t.status ∈ allowedStatuses) (hml : t.milestone ∉ excludedMilestones)
    (hau : ∀ a ∈ t.authors, a ∈ cfg.trusted_authors)
    (hpa : ∀ p ∈ t.participants, p ∈ cfg.trusted_authors)
    (hrep : t.current_reports = []) :
    (∀ E : Int, skipGet t.id sk = some E → now ≤ E →
      (rate_ticket cfg git now sk t).res = .ok none ∧
      (rate_ticket cfg git now sk t).to_skip = sk) ∧
    (∀ E : Int, skipGet t.id sk = some E → E < now →
      (rate_ticket cfg git now sk t).res =
        .ok (some (.pyTuple [100], prelimRating cfg t, -t.id)) ∧
      (rate_ticket cfg git now sk t).to_skip = skipDel t.id sk ∧
      skipGet t.id (rate_ticket cfg git now sk t).to_skip = none) ∧
    (skipGet t.id sk = none →
      (rate_ticket cfg git now sk t).res =
        .ok (some (.pyTuple [100], prelimRating cfg t, -t.id)) ∧
      (rate_ticket cfg git now sk t).to_skip = sk) := by
  have hred : rate_ticket cfg git now sk t =
      (match skipGet t.id sk with
       | some e =>
         if e < now then
           ⟨.ok (some (.pyTuple [100], prelimRating cfg t, -t.id)), t, skipDel t.id sk⟩
         else ⟨.ok none, t, sk⟩
       | none =>
         ⟨.ok (some (.pyTuple [100], prelimRating cfg t, -t.id)), t, sk⟩) := by
    rw [rate_ticket_guards cfg git now sk t hid hbr hst hml hau hpa]
    unfold rate_ticket_scan
    rw [hrep]
    cases ht : t.retry <;> rfl
  refine ⟨?_, ?_, ?_⟩
  · intro E hE hle
    rw [hred, hE]
    dsimp only
    rw [if_neg (by omega)]
    exact ⟨rfl, rfl⟩
  · intro E hE hlt
    rw [hred, hE]
    dsimp only
    rw [if_pos hlt]
    exact ⟨rfl, rfl, skipGet_skipDel t.id sk⟩
  · intro hE
    rw [hred, hE]
    exact ⟨rfl, rfl⟩

/-- Witness for C6 (amended) at a concrete ticket with an expired skip
entry: the ticket is rated and the entry is removed. -/
theorem skip_ledger_consult_semantics_witness :
    (rate_ticket sampleCfg gitAhead 200 [(5, 100)] skipProbeTicket).res =
      .ok (some (.pyTuple [100], 1000, -5)) ∧
    (rate_ticket sampleCfg gitAhead 200 [(5, 100)] skipProbeTicket).to_skip = [] ∧
    skipGet 5 (rate_ticket sampleCfg gitAhead 200 [(5, 100)] skipProbeTicket).to_skip =
      none := by
  have h := (skip_ledger_consult_semantics sampleCfg gitAhead 200 [(5, 100)] skipProbeTicket
    (by decide) rfl (by decide) (by decide) (by decide) (by decide) rfl).2.1
    100 rfl (by decide)
  exact ⟨h.1, h.2.1, h.2.2⟩

/-- C8: the third component of every score rate_ticket returns is the
negated ticket identifier, and for every pair of testable tickets with
identical uniqueness and identical rating the selection of get_ticket
(maximum score) deterministically returns the ticket with the lower
identifier. -/
theorem score_tiebreak_and_pair_selection :
    (∀ (cfg : Config) (git : String → Option Int) (now : Int)
       (sk : List (Int × Int)) (t : Ticket) (u : PyUniq) (r b : Int),
      (rate_ticket cfg git now sk t).res = .ok (some (u, r, b)) → b = -t.id)
    ∧ (∀ (cfg : Config) (git : String → Option Int) (now : Int)
        (sk : List (Int × Int)) (ta tb : Ticket) (sa sb : Score),
      (rate_ticket cfg git now sk ta).res = .ok (some sa) →
      (rate_ticket cfg git now (rate_ticket cfg git now sk ta).to_skip tb).res =
        .ok (some sb) →
      sa.1 = sb.1 → sa.2.1 = sb.2.1 → ta.id ≠ tb.id →
      get_ticket cfg git now sk [ta, tb] =
        .ok (some (if ta.id < tb.id then (sa, ta) else (sb, tb)))) := by
  refine ⟨fun cfg git now sk t u r b h => rate_res_tiebreak cfg git now sk t u r b h, ?_⟩
  intro cfg git now sk ta tb sa sb h1 h2 hu hr hne
  obtain ⟨u1, r1, b1⟩ := sa
  obtain ⟨u2, r2, b2⟩ := sb
  simp only at hu hr
  have hb1 : b1 = -ta.id := rate_res_tiebreak cfg git now sk ta u1 r1 b1 h1
  have hb2 : b2 = -tb.id := rate_res_tiebreak cfg git now _ tb u2 r2 b2 h2
  subst hu hr hb1 hb2
  have hirr : pyUniqLt u1 u1 = false := pyUniqLt_irrefl u1
  have hsl : scoreLt (u1, r1, -ta.id) (u1, r1, -tb.id) = decide (tb.id < ta.id) := by
    simp [scoreLt, hirr, Score]
  unfold get_ticket
  simp only [scoreAll, h1, h2]
  simp only [sortScored, List.foldr_cons, List.foldr_nil, insertScored]
  by_cases hlt : ta.id < tb.id
  · rw [if_pos hlt]
    have hf : scoreLt (u1, r1, -ta.id) (u1, r1, -tb.id) = false := by
      rw [hsl]
      simp
      omega
    rw [if_neg (by simp [hf])]
    rfl
  · have htb : tb.id < ta.id := by omega
    rw [if_neg hlt]
    have hf : scoreLt (u1, r1, -ta.id) (u1, r1, -tb.id) = true := by
      rw [hsl]
      simp [htb]
    rw [if_pos (by simp [hf])]
    rfl

/-- Witness for C8 at two concrete tickets that differ only in their ids
and receive identical uniqueness and rating: the pair selection returns
the ticket with the lower id. -/
theorem score_tiebreak_and_pair_selection_witness :
    get_ticket flatCfg gitSame 0 [] [pairTicket1, pairTicket2] =
      .ok (some ((.pyTuple [100], 0, -1), pairTicket1)) := by
  have h := score_tiebreak_and_pair_selection.2 flatCfg gitSame 0 [] pairTicket1 pairTicket2
    (.pyTuple [100], 0, -1) (.pyTuple [100], 0, -2) rfl rfl rfl rfl (by decide)
  simpa [pairTicket1, pairTicket2] using h
